import Mathlib

/-!
Verification of the HubSpot CRM tool (`api/app/clients/tools/structured/HubSpot.js`).
The file holds two variants of `HubSpotTool`: a base variant and an owner-ID
variant that additionally demands a numeric `hubspotOwnerId` on every call.
This development shallowly embeds the validation pipeline, the request
builders and the response handling of both variants, and settles the claims
about them.  JavaScript numbers are modelled as rationals, JSON-ish values as
an inductive `JValue`, and fallible paths as `Except String`.
-/

namespace HubSpot

/-- JSON-like values that can appear in a request's `data` mapping. -/
inductive JValue where
  | str (s : String)
  | num (q : ℚ)
  | bool (b : Bool)
  | arr (xs : List String)
  | null
deriving DecidableEq, Repr

/-- Raw `data` object of a call: an association of field names to values
(JavaScript objects cannot repeat keys; lookups take the first match). -/
abbrev RawData := List (String × JValue)

/-- JavaScript string truthiness: an absent value and the empty string are
falsy, every other string is truthy.  `jsTruthyStr v` is the value when it is
truthy and `none` otherwise, modelling guards `if (data.f)` and defaults
`data.f || d`. -/
def jsTruthyStr (v : Option String) : Option String :=
  match v with
  | some s => if s = "" then none else some s
  | none => none

/-- Model of `x || dflt` for a string-valued field. -/
def jsOrStr (v : Option String) (dflt : String) : String :=
  ((jsTruthyStr v).getD dflt)

/-- Whitespace characters matched by the JavaScript regex class `\s`
(restricted to the ASCII range plus NBSP, which covers every input the tool
handles). -/
def isJsWhitespace (c : Char) : Bool :=
  c = ' ' || c = '\t' || c = '\n' || c = '\r' ||
  c = '\x0b' || c = '\x0c' || c = ' '

/-- Model of `s.replace(/\s+/g, '')`: remove every whitespace character. -/
def stripWs (s : String) : String :=
  ⟨s.data.filter (fun c => !isJsWhitespace c)⟩

/-- Model of `s.replace(/[^0-9]/g, '')`: keep only decimal digits. -/
def stripNonDigits (s : String) : String :=
  ⟨s.data.filter Char.isDigit⟩

/-- Model of the test `/^\d+$/.test s`: nonempty and all digits. -/
def isDigitString (s : String) : Bool :=
  !(s == "") && s.data.all Char.isDigit

/-- Model of `s.toLowerCase()` (character-wise ASCII lower-casing, which
covers every stage phrase and type token the tool handles). -/
def jsToLower (s : String) : String :=
  ⟨s.data.map Char.toLower⟩

/-- Numeric value of a digit run (most significant first). -/
def digitsToNat (ds : List Char) : ℕ :=
  ds.foldl (fun n c => 10 * n + (c.toNat - 48)) 0

/-- Lexing stage of JavaScript `parseFloat` on the decimal numerals the tool
meets: skip leading whitespace, read an optional sign, an integer part and an
optional fractional part, and ignore any trailing garbage.  `none` stands for
`NaN` (no digits could be read); otherwise the sign, the integer part, the
fractional part and its digit count are returned.  Exponent forms and
`Infinity` are outside the inputs this tool processes and are not
modelled. -/
def parseDecimal (s : String) : Option (Bool × ℕ × ℕ × ℕ) :=
  let cs := s.data.dropWhile (fun c => isJsWhitespace c)
  let (neg, cs) :=
    match cs with
    | '-' :: r => (true, r)
    | '+' :: r => (false, r)
    | _ => (false, cs)
  let ip := cs.takeWhile Char.isDigit
  let cs := cs.dropWhile Char.isDigit
  let fp :=
    match cs with
    | '.' :: r => r.takeWhile Char.isDigit
    | _ => []
  if ip = [] ∧ fp = [] then none
  else some (neg, digitsToNat ip, digitsToNat fp, fp.length)

/-- Model of JavaScript `parseFloat`: the rational value of the lexed
numeral. -/
def jsParseFloat (s : String) : Option ℚ :=
  (parseDecimal s).map fun x =>
    let mag : ℚ := (x.2.1 : ℚ) + (x.2.2.1 : ℚ) / ((10 : ℚ) ^ x.2.2.2)
    if x.1 then -mag else mag

/-- Two-character decimal rendering of `m % 100`, the fractional part of a
`toFixed(2)` result. -/
def twoDigits (m : ℕ) : String :=
  ⟨[Char.ofNat (48 + m / 10 % 10), Char.ofNat (48 + m % 10)]⟩

/-- Model of `Number.prototype.toFixed(2)` on a (finite) number: round to the
nearest hundredth and print with exactly two digits after the point. -/
def toFixed2 (q : ℚ) : String :=
  (if round (q * 100) < 0 then "-" else "") ++ toString ((round (q * 100)).natAbs / 100)
    ++ "." ++ twoDigits ((round (q * 100)).natAbs % 100)

/-- `toFixed(2)` applied to a possibly-NaN value: `NaN.toFixed(2)` is the
string `NaN`. -/
def jsToFixed2 (v : Option ℚ) : String :=
  match v with
  | some q => toFixed2 q
  | none => "NaN"

/-! ## Validation layer

Zod schemas are embedded as field tables.  A `.strict()` object schema
rejects any key outside its field list and any missing required key; the
default (non-strict) object schema type-checks the declared keys and silently
strips unknown ones. -/

/-- The value type a zod field declaration accepts. -/
inductive FieldType where
  | str
  | num
  | bool
  | arrStr
  | enum (options : List String)
deriving DecidableEq, Repr

/-- Whether a value matches a declared field type. -/
def checkType : FieldType → JValue → Bool
  | .str, .str _ => true
  | .num, .num _ => true
  | .bool, .bool _ => true
  | .arrStr, .arr _ => true
  | .enum opts, .str s => opts.contains s
  | _, _ => false

/-- One field declaration of an object schema. -/
structure FieldSpec where
  name : String
  type : FieldType
  required : Bool
deriving DecidableEq, Repr

/-- A strict object schema is its list of field declarations. -/
abbrev Schema := List FieldSpec

/-- Parse of a strict (`.strict()`) object schema: every supplied key must be
declared with a matching type, and every required key must be supplied. -/
def schemaCheck (sch : Schema) (d : RawData) : Bool :=
  d.all (fun kv => sch.any (fun f => f.name == kv.1 && checkType f.type kv.2)) &&
  sch.all (fun f => !f.required || d.any (fun kv => kv.1 == f.name))

/-- The four CRM object types accepted by the association schemas. -/
def objTypeOptions : List String := ["contacts", "companies", "deals", "line_items"]

/-- `this.operationSchemas` of the base variant: the per-operation strict
schemas (field-level `describe` strings are irrelevant to validation and are
not modelled). -/
def operationSchemas : List (String × Schema) :=
  [("createLineItem",
     [⟨"name", .str, true⟩, ⟨"dealId", .str, true⟩, ⟨"sku", .str, true⟩,
      ⟨"quantity", .num, true⟩, ⟨"price", .num, true⟩]),
   ("createDeal",
     [⟨"dealName", .str, true⟩, ⟨"pipeline", .str, true⟩, ⟨"stage", .str, true⟩,
      ⟨"amount", .num, true⟩, ⟨"closeDate", .str, true⟩, ⟨"dealType", .str, true⟩]),
   ("updateDeal",
     [⟨"dealId", .str, true⟩, ⟨"dealName", .str, false⟩, ⟨"pipeline", .str, false⟩,
      ⟨"stage", .str, false⟩, ⟨"amount", .num, false⟩, ⟨"closeDate", .str, false⟩]),
   ("getDealLineItems",
     [⟨"dealId", .str, true⟩]),
   ("createAssociation",
     [⟨"fromObjectType", .enum objTypeOptions, true⟩, ⟨"fromObjectId", .str, true⟩,
      ⟨"toObjectType", .enum objTypeOptions, true⟩, ⟨"toObjectId", .str, true⟩]),
   ("searchContacts", []),
   ("searchCompanies", []),
   ("getPropertyDetails",
     [⟨"objectType", .enum ["deals", "contacts", "companies", "line_items"], true⟩,
      ⟨"propertyName", .str, true⟩])]

/-- `validateOperation`: look up the operation's strict schema and parse the
call's `data` against it; a failure carries a message that names the
operation (the zod issue list appended to the real message is elided). -/
def validateOperation (op : String) (d : RawData) : Except String RawData :=
  match operationSchemas.lookup op with
  | none => .ok d
  | some sch =>
      if schemaCheck sch d then .ok d else .error (op ++ " validation failed")

/-- The operations for which `_call` invokes `validateOperation` before the
global schema (the literal disjunction at the top of `_call`). -/
def strictOps : List String :=
  ["createLineItem", "createDeal", "getDealLineItems", "updateDeal", "createAssociation"]

/-- The closed operation set of `this.schema`'s `operation` enum. -/
def opsList : List String :=
  ["getContact", "createContact", "updateContact", "searchContacts",
   "getCompany", "createCompany", "updateCompany", "searchCompanies", "getCompanyByDomain",
   "getDeal", "createDeal", "updateDeal", "searchDeals", "associateDeal",
   "getLineItem", "createLineItem", "updateLineItem", "searchLineItems", "associateLineItem",
   "getDealLineItems", "getAssociations", "getAssociationTypes", "createAssociation",
   "deleteAssociation", "getOwners", "getPropertyDetails"]

/-- The operator enum shared by most per-field operator declarations. -/
def opEnum3 : FieldType := .enum ["EQ", "NEQ", "CONTAINS_TOKEN"]

/-- Effective field table of the base variant's global `data` schema.  In the
JavaScript object literal several keys are declared twice (`email`,
`firstName`, `lastName`, `phone`, `company`, `operator`, `closeDate`,
`dealName`); the later declaration wins, so the table lists each key once
with its final type (in particular `email` ends up a plain optional string,
the earlier `.email()` format being overridden). -/
def globalFields : List (String × FieldType) :=
  [("id", .str), ("email", .str), ("firstName", .str), ("lastName", .str),
   ("phone", .str), ("companyId", .str), ("name", .str), ("domain", .str),
   ("city", .str), ("country", .str), ("industry", .str), ("website", .str),
   ("description", .str), ("dealId", .str), ("dealName", .str), ("pipeline", .str),
   ("stage", .str), ("amount", .num), ("closeDate", .str), ("dealType", .str),
   ("lineItemId", .str), ("sku", .str), ("quantity", .num), ("price", .num),
   ("fromObjectType", .enum objTypeOptions), ("fromObjectId", .str),
   ("toObjectType", .enum objTypeOptions), ("toObjectId", .str),
   ("associationType", .str), ("company", .str), ("query", .str),
   ("properties", .arrStr), ("limit", .num), ("after", .str), ("archived", .bool),
   ("operator", opEnum3),
   ("closeDateOperator", .enum ["EQ", "NEQ", "LT", "LTE", "GT", "GTE"]),
   ("dealStage", .str), ("dealNameOperator", opEnum3),
   ("hubspotOwnerId", .str), ("hubspotOwnerIdOperator", .enum ["EQ", "NEQ"]),
   ("firstNameOperator", opEnum3), ("lastNameOperator", opEnum3),
   ("companyOperator", opEnum3), ("phoneOperator", opEnum3),
   ("nameOperator", opEnum3), ("domainOperator", opEnum3),
   ("websiteOperator", opEnum3), ("industryOperator", opEnum3),
   ("cityOperator", opEnum3), ("countryOperator", opEnum3),
   ("objectType", .enum ["deals", "contacts", "companies", "line_items"]),
   ("propertyName", .str)]

/-- Parse of the base variant's global (non-strict) `data` schema: declared
keys are type-checked, undeclared keys are stripped without error. -/
def globalCheck (d : RawData) : Except String RawData :=
  if d.all (fun kv =>
      match globalFields.lookup kv.1 with
      | some t => checkType t kv.2
      | none => true) then
    .ok (d.filter (fun kv => (globalFields.lookup kv.1).isSome))
  else .error "Validation failed"

/-- The whole pre-network validation of the base variant's `_call`: the
strict per-operation parse runs first, but only for the operations of
`strictOps`; then the global schema checks the operation tag and the data. -/
def validateCall (op : String) (d : RawData) : Except String RawData := do
  let d1 ← if strictOps.contains op then validateOperation op d else pure d
  if opsList.contains op then globalCheck d1 else .error "Validation failed"

/-- `needle` occurs as a contiguous substring of `hay`. -/
def strIncl (hay needle : String) : Prop :=
  ∃ p q, hay.data = p ++ needle.data ++ q

/-- Whether the first list is an initial segment of the second. -/
def listStartsWith : List Char → List Char → Bool
  | [], _ => true
  | _ :: _, [] => false
  | n :: ns, h :: hs => n == h && listStartsWith ns hs

/-- Executable substring check used to evaluate `strIncl` on closed inputs. -/
def strContainsB (hay needle : String) : Bool :=
  hay.data.tails.any (fun t => listStartsWith needle.data t)

/-! ## Request builders -/

/-- One entry of a search `filterGroups` body.  Like the JavaScript object
literals, a filter carries either a single `value` or a `values` list. -/
structure Filter where
  propertyName : String
  operator : String
  value : Option String
  values : Option (List String)
deriving DecidableEq, Repr

/-- The hard-coded stage identifiers the aggregate `dealStage` value `open`
expands to in `searchDeals`. -/
def openStageIds : List String :=
  ["qualifiedtobuy", "184746840", "184746837", "appointmentscheduled", "184746838"]

/-- The `dealstage` filter contributed by a truthy `dealStage` search value. -/
def dealStageFilter (s : String) : Filter :=
  if jsToLower s = "open" then ⟨"dealstage", "IN", none, some openStageIds⟩
  else if jsToLower s = "closed" then ⟨"dealstage", "IN", none, some ["closedwon", "closedlost"]⟩
  else ⟨"dealstage", "EQ", some (stripWs (jsToLower s)), none⟩

/-- The searchable fields of a `searchDeals` call (validated shape). -/
structure SearchDealsData where
  query : Option String
  closeDate : Option String
  closeDateOperator : Option String
  dealStage : Option String
  dealName : Option String
  dealNameOperator : Option String
  hubspotOwnerId : Option String
  hubspotOwnerIdOperator : Option String
deriving Repr

/-- The `filters` list built by the `searchDeals` case: the constant
`createdate` base filter followed by one filter per truthy search field, in
source order. -/
def searchDealsFilters (d : SearchDealsData) : List Filter :=
  [⟨"createdate", "GTE", some "0", none⟩] ++
  (match jsTruthyStr d.query with
   | some q => [⟨"dealname", "CONTAINS_TOKEN", some q, none⟩]
   | none => []) ++
  (match jsTruthyStr d.closeDate with
   | some c => [⟨"closedate", jsOrStr d.closeDateOperator "EQ", some c, none⟩]
   | none => []) ++
  (match jsTruthyStr d.dealStage with
   | some s => [dealStageFilter s]
   | none => []) ++
  (match jsTruthyStr d.dealName with
   | some n => [⟨"dealname", jsOrStr d.dealNameOperator "CONTAINS_TOKEN", some n, none⟩]
   | none => []) ++
  (match jsTruthyStr d.hubspotOwnerId with
   | some o => [⟨"hubspot_owner_id", jsOrStr d.hubspotOwnerIdOperator "EQ", some o, none⟩]
   | none => [])

/-- The `stageMapping` table of the `createDeal` case: human-readable stage
phrases to HubSpot stage identifiers (every right-hand side is a nonempty,
hence truthy, string). -/
def stageMapping : List (String × String) :=
  [("business initiative defined", "appointmentscheduled"),
   ("compelling client event", "qualifiedtobuy"),
   ("client sponsor", "presentationscheduled"),
   ("product fit", "decisionmakerboughtin"),
   ("vendor aligned", "contractsent"),
   ("decision criteria", "closedlost"),
   ("closed won", "closedwon"),
   ("vendor client presentation", "184746835"),
   ("differentiation", "184746836"),
   ("solution & commercial review", "184746837"),
   ("proposal complete", "184746838"),
   ("presentation/pitch", "184746839"),
   ("maximise revenue potential", "184746840"),
   ("closed lost", "184746841")]

/-- The `dealstage` value built by `createDeal`:
`(stageMapping[stage.toLowerCase()] || stage.toLowerCase()).replace(/\s+/g, '')`. -/
def mappedDealStage (stage : String) : String :=
  stripWs ((stageMapping.lookup (jsToLower stage)).getD (jsToLower stage))

/-- Validated `createDeal` data (all six fields required by the strict
schema). -/
structure CreateDealData where
  dealName : String
  pipeline : String
  stage : String
  amount : ℚ
  closeDate : String
  dealType : String
deriving Repr

/-- The `properties` mapping of the `createDeal` POST body. -/
def createDealProps (d : CreateDealData) : List (String × JValue) :=
  [("dealname", .str d.dealName),
   ("pipeline", .str d.pipeline),
   ("dealstage", .str (mappedDealStage d.stage)),
   ("amount", .num d.amount),
   ("closedate", .str d.closeDate),
   ("dealtype", .str (stripWs (jsToLower d.dealType)))]

/-- Entry contributed to a PATCH `properties` mapping by the spread
`...(data.f && \x7b key: data.f \x7d)`: present exactly when the string is
truthy. -/
def optStrEntry (k : String) (v : Option String) : List (String × JValue) :=
  match v with
  | some s => if s = "" then [] else [(k, .str s)]
  | none => []

/-- Numeric analogue of `optStrEntry`: `0` is falsy and is dropped. -/
def optNumEntry (k : String) (v : Option ℚ) : List (String × JValue) :=
  match v with
  | some q => if q = 0 then [] else [(k, .num q)]
  | none => []

/-- Validated `updateDeal` data: `dealId` required, the rest optional. -/
structure UpdateDealData where
  dealId : String
  dealName : Option String
  pipeline : Option String
  stage : Option String
  amount : Option ℚ
  closeDate : Option String
deriving Repr

/-- The `properties` mapping of the `updateDeal` PATCH body. -/
def updateDealProps (d : UpdateDealData) : List (String × JValue) :=
  optStrEntry "dealname" d.dealName ++
  optStrEntry "pipeline" d.pipeline ++
  optStrEntry "dealstage" d.stage ++
  optNumEntry "amount" d.amount ++
  optStrEntry "closedate" d.closeDate

/-- Fields of an `updateContact` call. -/
structure UpdateContactData where
  id : String
  firstName : Option String
  lastName : Option String
  company : Option String
  phone : Option String
  email : Option String
deriving Repr

/-- The `properties` mapping of the `updateContact` PATCH body. -/
def updateContactProps (d : UpdateContactData) : List (String × JValue) :=
  optStrEntry "firstname" d.firstName ++
  optStrEntry "lastname" d.lastName ++
  optStrEntry "company" d.company ++
  optStrEntry "phone" d.phone ++
  optStrEntry "email" d.email

/-- Fields of an `updateCompany` call. -/
structure UpdateCompanyData where
  companyId : String
  name : Option String
  domain : Option String
  website : Option String
  industry : Option String
  city : Option String
  country : Option String
  description : Option String
deriving Repr

/-- The `properties` mapping of the `updateCompany` PATCH body. -/
def updateCompanyProps (d : UpdateCompanyData) : List (String × JValue) :=
  optStrEntry "name" d.name ++
  optStrEntry "domain" d.domain ++
  optStrEntry "website" d.website ++
  optStrEntry "industry" d.industry ++
  optStrEntry "city" d.city ++
  optStrEntry "country" d.country ++
  optStrEntry "description" d.description

/-- Fields of an `updateLineItem` call. -/
structure UpdateLineItemData where
  lineItemId : String
  sku : Option String
  quantity : Option ℚ
  price : Option ℚ
  name : Option String
deriving Repr

/-- The `properties` mapping of the `updateLineItem` PATCH body. -/
def updateLineItemProps (d : UpdateLineItemData) : List (String × JValue) :=
  optStrEntry "hs_sku" d.sku ++
  optNumEntry "quantity" d.quantity ++
  optNumEntry "price" d.price ++
  optStrEntry "name" d.name

/-! ## Association creation -/

/-- The object types of the `createAssociation` strict schema's enums. -/
inductive ObjType where
  | contacts
  | companies
  | deals
  | line_items
deriving DecidableEq, Repr

/-- String form of an object type, as used in endpoints and messages. -/
def ObjType.toStr : ObjType → String
  | .contacts => "contacts"
  | .companies => "companies"
  | .deals => "deals"
  | .line_items => "line_items"

/-- One element of the `inputs` list of the batch-create body. -/
structure AssociationInput where
  fromId : String
  toId : String
  type : String
deriving DecidableEq, Repr

/-- The `createAssociation` POST body. -/
structure CreateAssociationBody where
  inputs : List AssociationInput
deriving DecidableEq, Repr

/-- The hard-coded association-type lookup of the `createAssociation` case
(the chain of `if` statements on the type pair). -/
def knownAssociationType : ObjType → ObjType → Option String
  | .companies, .deals => some "company_to_deal"
  | .deals, .companies => some "deal_to_company"
  | .contacts, .deals => some "contact_to_deal"
  | .deals, .contacts => some "deal_to_contact"
  | _, _ => none

/-- Error raised when an unknown type pair comes without an explicit token. -/
def missingAssociationTypeMsg (fromT toT : ObjType) : String :=
  "Association type must be specified for " ++ fromT.toStr ++ " to " ++
  toT.toStr ++ " association"

/-- Body built by the `createAssociation` case: a known pair always takes the
hard-coded token; otherwise a truthy caller-supplied token is used, and its
absence is an error (raised before the network call). -/
def buildCreateAssociation (fromT toT : ObjType) (fromId toId : String)
    (callerType : Option String) : Except String CreateAssociationBody :=
  match knownAssociationType fromT toT with
  | some t => .ok ⟨[⟨fromId, toId, t⟩]⟩
  | none =>
      match jsTruthyStr callerType with
      | some t => .ok ⟨[⟨fromId, toId, t⟩]⟩
      | none => .error (missingAssociationTypeMsg fromT toT)

/-! ## The composite getDealLineItems operation -/

/-- First truthy of `data?.dealId || data?.id`. -/
def jsFirstTruthy (a b : Option String) : Option String :=
  match jsTruthyStr a with
  | some s => some s
  | none => jsTruthyStr b

/-- Error raised when neither `dealId` nor `id` is truthy. -/
def dealIdRequiredMsg : String :=
  "Deal ID is required for getting associated line items. Please provide either \"id\" or \"dealId\" in the data."

/-- Error raised when the supplied deal identifier holds no digit. -/
def invalidDealIdMsg : String := "Invalid deal ID format. Expected a numeric ID."

/-- Sanitization of the caller-supplied deal identifier: pick
`dealId || id`, strip every non-digit and fail when nothing remains.  Runs
before the search request is sent. -/
def dealLineItemsDealId (dealId id : Option String) : Except String String :=
  match jsFirstTruthy dealId id with
  | none => .error dealIdRequiredMsg
  | some v =>
      if stripNonDigits v = "" then .error invalidDealIdMsg
      else .ok (stripNonDigits v)

/-- The filters of the inner line-item search request, over the sanitized
deal identifier. -/
def dealLineItemsFilters (sanitizedId : String) : List Filter :=
  [⟨"associations.deal", "EQ", some sanitizedId, none⟩]

/-- The inner search request body (filters only; the `properties` list and
`limit: 100` are constants).  Produced only when sanitization succeeds, so an
identifier without digits never reaches the network. -/
def dealLineItemsRequest (dealId id : Option String) : Except String (List Filter) := do
  let s ← dealLineItemsDealId dealId id
  pure (dealLineItemsFilters s)

/-- `properties` of one line item of the inner search response. -/
structure LineItemProps where
  name : Option String
  quantity : Option String
  price : Option String
  amount : Option String
  hs_sku : Option String
deriving DecidableEq, Repr

/-- One result row of the inner search response. -/
structure LineItem where
  properties : LineItemProps
deriving DecidableEq, Repr

/-- Parsed JSON of the inner search response; both `total` and `results` may
be absent. -/
structure LineItemSearchResponse where
  total : Option ℕ
  results : Option (List LineItem)
deriving DecidableEq, Repr

/-- One row of the derived `tableData`. -/
structure TableRow where
  name : String
  quantity : String
  price : String
  amount : String
  sku : String
deriving DecidableEq, Repr

/-- The derived `tableData` block. -/
structure TableData where
  headers : List String
  rows : List TableRow
deriving DecidableEq, Repr

/-- The summary object returned by `getDealLineItems`.  `totalAmount` is
`none` when the response has no `results` array (the optional chain
`searchJson.results?.reduce` leaves it `undefined`). -/
structure DealLineItemsSummary where
  total : ℕ
  results : List LineItem
  dealId : String
  totalAmount : Option ℚ
  message : String
  tableData : TableData
deriving DecidableEq, Repr

/-- Contribution of one row to `totalAmount`:
`parseFloat(item.properties.amount) || 0` (an absent field coerces to the
string `undefined`, which parses to `NaN`). -/
def amountContribution (v : Option String) : ℚ :=
  match v with
  | none => 0
  | some s => (jsParseFloat s).getD 0

/-- Numeric value displayed for a row's `price`/`amount` column:
`parseFloat(v || 0)`, so an absent or empty field reads as `0` while a
nonempty unparseable field is `NaN` (`none`). -/
def rowNumField (v : Option String) : Option ℚ :=
  match v with
  | none => some 0
  | some s => if s = "" then some 0 else jsParseFloat s

/-- One row of the tabular projection. -/
def toTableRow (item : LineItem) : TableRow :=
  { name := jsOrStr item.properties.name "N/A",
    quantity := jsOrStr item.properties.quantity "0",
    price := jsToFixed2 (rowNumField item.properties.price),
    amount := jsToFixed2 (rowNumField item.properties.amount),
    sku := jsOrStr item.properties.hs_sku "N/A" }

/-- `searchJson.results?.length || 0`. -/
def resultsLength (resp : LineItemSearchResponse) : ℕ :=
  match resp.results with
  | some rs => rs.length
  | none => 0

/-- The summary built from a successful inner search response. -/
def buildSummary (dealId : String) (resp : LineItemSearchResponse) : DealLineItemsSummary :=
  { total :=
      match resp.total with
      | some t => if t = 0 then resultsLength resp else t
      | none => resultsLength resp,
    results := resp.results.getD [],
    dealId := dealId,
    totalAmount :=
      resp.results.map (fun rs =>
        rs.foldl (fun sum item => sum + amountContribution item.properties.amount) 0),
    message := "Successfully retrieved " ++ toString (resultsLength resp) ++
      " line items for deal " ++ dealId,
    tableData :=
      { headers := ["Name", "Quantity", "Price", "Amount", "SKU"],
        rows := (resp.results.getD []).map toTableRow } }

/-- Error text of a failed inner search, after the surrounding catch rewraps
it: neither layer embeds the HTTP status code. -/
def dealLineItemsError (searchJsonText : String) : String :=
  "Failed to get deal line items: " ++ ("Failed to get line items: " ++ searchJsonText)

/-- Handling of the inner search response of `getDealLineItems`: a 2xx status
yields the derived summary, anything else the rewrapped error.
`searchJsonText` is the stringified response body embedded in the error
message, `parsed` its parsed form. -/
def dealLineItemsHandle (status : ℕ) (searchJsonText : String)
    (parsed : LineItemSearchResponse) (dealId : String) :
    Except String DealLineItemsSummary :=
  if 200 ≤ status ∧ status ≤ 299 then .ok (buildSummary dealId parsed)
  else .error (dealLineItemsError searchJsonText)

/-! ## Dispatcher response handling -/

/-- The fixed marker returned for a DELETE that came back 204. -/
def deleteSuccessMarker : String :=
  "\x7b\"success\":true,\"message\":\"Association deleted successfully\"\x7d"

/-- Error text for a non-success status, as rewrapped by the outer catch of
`_call`: it embeds the status code and the stringified remote error body. -/
def remoteErrorMsg (status : ℕ) (body : String) : String :=
  "HubSpot API request failed: HubSpot request failed with status " ++
  toString status ++ ": " ++ body

/-- Response handling of every operation that reaches the shared dispatch at
the end of `_call`.  `body` is the parsed response body (`none` when
`response.json()` would fail, e.g. on an empty 204 body).  A DELETE with
status 204 short-circuits to the fixed success marker before any body parse;
a 2xx status passes the body through; anything else raises the wrapped
remote error. -/
def handleResponse (method : String) (status : ℕ) (body : Option String) :
    Except String String :=
  if method = "DELETE" ∧ status = 204 then .ok deleteSuccessMarker
  else
    match body with
    | none => .error "HubSpot API request failed: Unexpected end of JSON input"
    | some b =>
        if 200 ≤ status ∧ status ≤ 299 then .ok b
        else .error (remoteErrorMsg status b)

/-! ## The owner-ID variant -/

/-- Error raised when a call lacks a truthy `hubspotOwnerId`. -/
def ownerIdRequiredMsg : String :=
  "HubSpot Owner ID is required. Please provide your HubSpot Owner ID to proceed."

/-- Error raised when the supplied `hubspotOwnerId` is not digits-only. -/
def ownerIdNumericMsg : String :=
  "HubSpot Owner ID must be a numeric value (e.g., \"528910992\")"

/-- Error raised by `getOwnerId` when no owner identifier is available. -/
def ownerIdUnsetMsg : String :=
  "HubSpot Owner ID is required but not set. Please provide your HubSpot Owner ID. " ++
  "This can be found in your HubSpot user settings or via the API. " ++
  "It should be a numeric value (e.g., \"528910992\")."

/-- JavaScript truthiness of a JSON value: the empty string, the number
zero, `false` and `null` are falsy; every other string, number or boolean,
and every array (even an empty one), is truthy. -/
def jvTruthy : JValue → Bool
  | .str s => !(s == "")
  | .num q => !(q == 0)
  | .bool b => b
  | .arr _ => true
  | .null => false

/-- Whether `/^\d+$/.test(v)` holds: `RegExp.test` coerces its argument to a
string first, so a string passes iff it is a nonempty digit run; a number's
decimal rendering is a digit run iff the number is a nonnegative integer
(a negative number prints a minus sign, a non-integer a decimal point); the
renderings of booleans (`true`/`false`) and `null` are never digit runs; an
array prints as its comma-joined elements. -/
def jvTestDigits : JValue → Bool
  | .str s => isDigitString s
  | .num q => q.den == 1 && decide (0 ≤ q.num)
  | .bool _ => false
  | .arr xs => isDigitString (String.intercalate "," xs)
  | .null => false

/-- Mutable per-instance state of the owner-ID variant: the constructor-time
owner identifier and the `storedOwnerId` cache (which holds the raw value
the caller supplied — the gate stores `input.data.hubspotOwnerId` itself,
not its string coercion). -/
structure OwnerToolState where
  ownerId : Option String
  storedOwnerId : Option JValue
deriving DecidableEq, Repr

/-- The owner-identifier gate at the top of the owner-ID variant's `_call`:
a missing or falsy `hubspotOwnerId` fails, a truthy one whose string
coercion is not digits-only fails with the distinct numeric error, and a
truthy digits-only one — whatever its JSON type — is written to
`storedOwnerId`.  The gate never reads the existing state. -/
def ownerIdCheck (st : OwnerToolState) (v : Option JValue) :
    Except String OwnerToolState :=
  match v with
  | none => .error ownerIdRequiredMsg
  | some jv =>
      if jvTruthy jv then
        if jvTestDigits jv then .ok { st with storedOwnerId := some jv }
        else .error ownerIdNumericMsg
      else .error ownerIdRequiredMsg

/-- `getOwnerId`: the stored value, else the constructor-time identifier,
else an error. -/
def getOwnerId (st : OwnerToolState) : Except String JValue :=
  match st.storedOwnerId with
  | some v => .ok v
  | none =>
      match st.ownerId with
      | some s => .ok (.str s)
      | none => .error ownerIdUnsetMsg

/-- The raw `hubspotOwnerId` value of a call's `data` object. -/
def dataOwnerField (d : RawData) : Option JValue :=
  d.lookup "hubspotOwnerId"

/-- Common-field table of the owner-ID variant's global `data` schema, which
is `.passthrough()`: only these keys are type-checked and `hubspotOwnerId`
is required; unknown keys pass through untouched. -/
def globalFieldsB : List (String × FieldType) :=
  [("query", .str), ("properties", .arrStr), ("limit", .num),
   ("after", .str), ("hubspotOwnerId", .str)]

/-- Parse of the owner-ID variant's global schema. -/
def globalCheckB (d : RawData) : Except String RawData :=
  if (d.all fun kv =>
        match globalFieldsB.lookup kv.1 with
        | some t => checkType t kv.2
        | none => true) &&
     (d.any fun kv => kv.1 == "hubspotOwnerId") then .ok d
  else .error "Validation failed"

/-- The pre-network pipeline of the owner-ID variant's `_call`: the owner
gate runs first, then the strict per-operation validation (same five
operations), then the global schema.  A gate failure therefore precedes and
masks every schema error. -/
def callPipelineB (st : OwnerToolState) (op : String) (d : RawData) :
    Except String (OwnerToolState × RawData) := do
  let st' ← ownerIdCheck st (dataOwnerField d)
  let d1 ← if strictOps.contains op then validateOperation op d else pure d
  let d2 ← if opsList.contains op then globalCheckB d1 else .error "Validation failed"
  pure (st', d2)

/-! ## Concrete fixtures used by counterexamples and witnesses -/

/-- The stringified remote body used in the C9 counterexample. -/
def c9Body : String := "\x7b\"status\":\"error\",\"message\":\"Deal not found\"\x7d"

/-- First row of the jest mock response: Product 1, quantity 2 at 99.99,
amount 199.98. -/
def c1Item1 : LineItem :=
  ⟨⟨some "Product 1", some "2", some "99.99", some "199.98", some "SKU123"⟩⟩

/-- Second row of the jest mock response: Product 2, quantity 1 at 149.99. -/
def c1Item2 : LineItem :=
  ⟨⟨some "Product 2", some "1", some "149.99", some "149.99", some "SKU456"⟩⟩

/-- The two-row result list of the jest mock response. -/
def c1DemoRows : List LineItem := [c1Item1, c1Item2]

/-- The jest mock response: total 2, the two rows above. -/
def c1DemoResp : LineItemSearchResponse := ⟨some 2, some c1DemoRows⟩

/-- Response used by the C1 counterexample: the remote reports `total: 5`
while returning two rows, the first of which carries a nonempty unparseable
price. -/
def c1BadResp : LineItemSearchResponse :=
  ⟨some 5, some [⟨⟨some "Widget", some "2", some "abc", some "199.98", some "SKU1"⟩⟩, c1Item2]⟩

/-! ## Helper lemmas -/

theorem listStartsWith_iff (n h : List Char) :
    listStartsWith n h = true ↔ ∃ t, h = n ++ t := by
  induction n generalizing h with
  | nil => simp [listStartsWith]
  | cons a as ih =>
    cases h with
    | nil => simp [listStartsWith]
    | cons b hs =>
      simp only [listStartsWith, Bool.and_eq_true, beq_iff_eq, ih, List.cons_append,
        List.cons.injEq]
      constructor
      · rintro ⟨rfl, t, rfl⟩
        exact ⟨t, rfl, rfl⟩
      · rintro ⟨t, rfl, rfl⟩
        exact ⟨rfl, t, rfl⟩

theorem strContainsB_iff (hay needle : String) :
    strContainsB hay needle = true ↔ strIncl hay needle := by
  simp only [strContainsB, List.any_eq_true, strIncl]
  constructor
  · rintro ⟨t, ht, hs⟩
    rw [List.mem_tails] at ht
    obtain ⟨p, hp⟩ := ht
    obtain ⟨q, rfl⟩ := (listStartsWith_iff _ _).1 hs
    exact ⟨p, q, by rw [← hp, List.append_assoc]⟩
  · rintro ⟨p, q, hpq⟩
    refine ⟨needle.data ++ q, ?_, ?_⟩
    · rw [List.mem_tails, hpq]
      exact ⟨p, by rw [List.append_assoc]⟩
    · exact (listStartsWith_iff _ _).2 ⟨q, rfl⟩

theorem foldl_add_map {α : Type} (f : α → ℚ) (rs : List α) (a : ℚ) :
    rs.foldl (fun sum item => sum + f item) a = a + (rs.map f).sum := by
  induction rs generalizing a with
  | nil => simp
  | cons x xs ih => simp [ih, add_assoc]

theorem mem_optStrEntry {k' : String} {v : Option String} {k : String} {j : JValue} :
    (k, j) ∈ optStrEntry k' v ↔ k = k' ∧ ∃ s, j = .str s ∧ v = some s ∧ s ≠ "" := by
  cases v with
  | none => simp [optStrEntry]
  | some s =>
    by_cases hs : s = "" <;>
      simp [optStrEntry, hs, Prod.ext_iff, and_comm, and_assoc, eq_comm]

theorem mem_keys_optStrEntry {k' : String} {v : Option String} {k : String} :
    k ∈ (optStrEntry k' v).map Prod.fst ↔ k = k' ∧ ∃ s, v = some s ∧ s ≠ "" := by
  cases v with
  | none => simp [optStrEntry]
  | some s =>
    by_cases hs : s = "" <;> simp [optStrEntry, hs, eq_comm]

theorem mem_optNumEntry {k' : String} {v : Option ℚ} {k : String} {j : JValue} :
    (k, j) ∈ optNumEntry k' v ↔ k = k' ∧ ∃ q, j = .num q ∧ v = some q ∧ q ≠ 0 := by
  cases v with
  | none => simp [optNumEntry]
  | some q =>
    by_cases hq : q = 0 <;>
      simp [optNumEntry, hq, Prod.ext_iff, and_comm, and_assoc, eq_comm]

theorem mem_keys_optNumEntry {k' : String} {v : Option ℚ} {k : String} :
    k ∈ (optNumEntry k' v).map Prod.fst ↔ k = k' ∧ ∃ q, v = some q ∧ q ≠ 0 := by
  cases v with
  | none => simp [optNumEntry]
  | some q =>
    by_cases hq : q = 0 <;> simp [optNumEntry, hq, eq_comm]

theorem schemaCheck_eq_false_of_unexpected (sch : Schema) (d : RawData)
    (kv : String × JValue) (hmem : kv ∈ d) (h : ∀ f ∈ sch, f.name ≠ kv.1) :
    schemaCheck sch d = false := by
  have ha : d.all (fun kv => sch.any (fun f => f.name == kv.1 && checkType f.type kv.2)) = false := by
    by_contra hall
    rw [Bool.not_eq_false, List.all_eq_true] at hall
    have hkv := hall kv hmem
    rw [List.any_eq_true] at hkv
    obtain ⟨f, hf, hfeq⟩ := hkv
    rw [Bool.and_eq_true, beq_iff_eq] at hfeq
    exact h f hf hfeq.1
  unfold schemaCheck
  rw [ha, Bool.false_and]

theorem schemaCheck_eq_false_of_missing (sch : Schema) (d : RawData)
    (f : FieldSpec) (hf : f ∈ sch) (hreq : f.required = true)
    (h : ∀ kv ∈ d, kv.1 ≠ f.name) : schemaCheck sch d = false := by
  have hb : sch.all (fun f => !f.required || d.any (fun kv => kv.1 == f.name)) = false := by
    by_contra hall
    rw [Bool.not_eq_false, List.all_eq_true] at hall
    have hone := hall f hf
    rw [hreq] at hone
    simp only [Bool.not_true, Bool.false_or, List.any_eq_true] at hone
    obtain ⟨kv, hkv, hkeq⟩ := hone
    exact h kv hkv (by rwa [beq_iff_eq] at hkeq)
  unfold schemaCheck
  rw [hb, Bool.and_false]

theorem validateCall_strict_error (op : String) (d : RawData) (sch : Schema)
    (hin : strictOps.contains op = true)
    (hlk : operationSchemas.lookup op = some sch)
    (hchk : schemaCheck sch d = false) :
    validateCall op d = .error (op ++ " validation failed") := by
  unfold validateCall validateOperation
  simp only [hin, hlk, hchk]
  rfl

/-! ## Claim C3 -/

/-- Counterexample to claim C3: the strict schemas for `searchContacts`,
`searchCompanies` and `getPropertyDetails` exist in `operationSchemas` but
`_call` never dispatches them, so a contact search carrying an unexpected
field — and a property lookup missing its required `propertyName` — sail
through validation instead of failing with an operation-named error. -/
theorem claim_C3_counterexample :
    validateCall "searchContacts" [("bogus", JValue.str "x")] = .ok [] ∧
    validateCall "getPropertyDetails" [("objectType", JValue.str "deals")] =
      .ok [("objectType", JValue.str "deals")] :=
  ⟨rfl, rfl⟩

/-- Claim C3 as amended: exactly for the five dispatched operations
(`createLineItem`, `createDeal`, `updateDeal`, `getDealLineItems`,
`createAssociation`), an input with an unexpected field or a missing
required field fails validation, before any network access, with an error
naming the operation; the strict schemas of the search and property-lookup
operations are never invoked. -/
theorem claim_C3_amended :
    ∀ op, op ∈ strictOps → ∀ d : RawData,
      ((∃ kv ∈ d, ∀ f ∈ (operationSchemas.lookup op).getD [], f.name ≠ kv.1) ∨
       (∃ f ∈ (operationSchemas.lookup op).getD [],
         f.required = true ∧ ∀ kv ∈ d, kv.1 ≠ f.name)) →
      validateCall op d = .error (op ++ " validation failed") := by
  intro op hop d hbad
  have hsch : ∃ sch, operationSchemas.lookup op = some sch ∧ strictOps.contains op = true := by
    fin_cases hop <;> exact ⟨_, rfl, rfl⟩
  obtain ⟨sch, hlk, hin⟩ := hsch
  have hchk : schemaCheck sch d = false := by
    rw [hlk] at hbad
    simp only [Option.getD_some] at hbad
    rcases hbad with ⟨kv, hkv, hnone⟩ | ⟨f, hf, hreq, habs⟩
    · exact schemaCheck_eq_false_of_unexpected sch d kv hkv hnone
    · exact schemaCheck_eq_false_of_missing sch d f hf hreq habs
  exact validateCall_strict_error op d sch hin hlk hchk

/-- Witness for C3: an unexpected `bogus` field on `updateDeal` and a
missing required `pipeline` on `createDeal` are rejected with errors naming
the operations. -/
theorem claim_C3_witness :
    validateCall "updateDeal" [("dealId", JValue.str "1"), ("bogus", JValue.str "x")] =
      .error "updateDeal validation failed" ∧
    validateCall "createDeal" [("dealName", JValue.str "D")] =
      .error "createDeal validation failed" := by
  constructor
  · have h := claim_C3_amended "updateDeal" (by decide)
      [("dealId", JValue.str "1"), ("bogus", JValue.str "x")]
      (Or.inl ⟨("bogus", JValue.str "x"), by decide, by decide⟩)
    simpa using h
  · have h := claim_C3_amended "createDeal" (by decide)
      [("dealName", JValue.str "D")]
      (Or.inr ⟨⟨"pipeline", .str, true⟩, by decide, rfl, by decide⟩)
    simpa using h

/-! ## Claim C4 -/

/-- Claim C4: in `createDeal`, the phrase `Closed Won` maps to the stage
token `closedwon` and `Compelling Client Event` maps to `qualifiedtobuy`;
every phrase absent (case-insensitively) from the canonicalization table
yields the input lower-cased with all whitespace removed, passed through
otherwise unchanged. -/
theorem claim_C4 :
    mappedDealStage "Closed Won" = "closedwon" ∧
    mappedDealStage "Compelling Client Event" = "qualifiedtobuy" ∧
    ∀ s : String, stageMapping.lookup (jsToLower s) = none →
      mappedDealStage s = stripWs (jsToLower s) := by
  refine ⟨by decide, by decide, fun s h => ?_⟩
  unfold mappedDealStage
  rw [h, Option.getD_none]

/-- Witness for C4 at the unrecognized phrase `Foo Bar`. -/
theorem claim_C4_witness :
    stageMapping.lookup (jsToLower "Foo Bar") = none ∧
    mappedDealStage "Foo Bar" = stripWs (jsToLower "Foo Bar") ∧
    stripWs (jsToLower "Foo Bar") = "foobar" :=
  ⟨by decide, claim_C4.2.2 "Foo Bar" (by decide), by decide⟩

/-! ## Claim C5 -/

/-- Claim C5: `createAssociation` on one of the four known type pairs always
builds the hard-coded association token, whatever token the caller supplies;
on any other pair without a truthy caller-supplied token it fails before any
network access. -/
theorem claim_C5 :
    knownAssociationType .companies .deals = some "company_to_deal" ∧
    knownAssociationType .deals .companies = some "deal_to_company" ∧
    knownAssociationType .contacts .deals = some "contact_to_deal" ∧
    knownAssociationType .deals .contacts = some "deal_to_contact" ∧
    (∀ fromT toT t fromId toId ov, knownAssociationType fromT toT = some t →
      buildCreateAssociation fromT toT fromId toId ov = .ok ⟨[⟨fromId, toId, t⟩]⟩) ∧
    (∀ fromT toT fromId toId ov, knownAssociationType fromT toT = none →
      jsTruthyStr ov = none →
      buildCreateAssociation fromT toT fromId toId ov =
        .error (missingAssociationTypeMsg fromT toT)) := by
  refine ⟨rfl, rfl, rfl, rfl, ?_, ?_⟩
  · intro fromT toT t fromId toId ov h
    simp [buildCreateAssociation, h]
  · intro fromT toT fromId toId ov h hov
    simp [buildCreateAssociation, h, hov]

/-- Witness for C5: a known pair ignores the caller's override, an unknown
pair without a token fails. -/
theorem claim_C5_witness :
    buildCreateAssociation .companies .deals "10" "20" (some "override") =
      .ok ⟨[⟨"10", "20", "company_to_deal"⟩]⟩ ∧
    buildCreateAssociation .line_items .deals "10" "20" none =
      .error (missingAssociationTypeMsg .line_items .deals) :=
  ⟨claim_C5.2.2.2.2.1 .companies .deals "company_to_deal" "10" "20" (some "override") rfl,
   claim_C5.2.2.2.2.2 .line_items .deals "10" "20" none rfl rfl⟩

/-! ## Claim C8 -/

/-- Claim C8: `getDealLineItems` strips every non-digit character from the
caller-supplied deal identifier before it is used in the search filter, and
when no digit remains the call fails before the network request. -/
theorem claim_C8 :
    (∀ dealId id v, jsFirstTruthy dealId id = some v →
      (stripNonDigits v ≠ "" →
        dealLineItemsRequest dealId id =
          .ok [⟨"associations.deal", "EQ", some (stripNonDigits v), none⟩]) ∧
      (stripNonDigits v = "" →
        dealLineItemsRequest dealId id = .error invalidDealIdMsg)) ∧
    (∀ dealId id, jsFirstTruthy dealId id = none →
      dealLineItemsRequest dealId id = .error dealIdRequiredMsg) := by
  constructor
  · intro dealId id v h
    constructor
    · intro hne
      simp [dealLineItemsRequest, dealLineItemsDealId, dealLineItemsFilters, h, hne]
    · intro he
      simp [dealLineItemsRequest, dealLineItemsDealId, h, he]
  · intro dealId id h
    simp [dealLineItemsRequest, dealLineItemsDealId, h]

/-- Witness for C8: `deal-123456` is sanitized to `123456`, while `abc`
fails before the network call. -/
theorem claim_C8_witness :
    dealLineItemsRequest (some "deal-123456") none =
      .ok [⟨"associations.deal", "EQ", some (stripNonDigits "deal-123456"), none⟩] ∧
    stripNonDigits "deal-123456" = "123456" ∧
    dealLineItemsRequest (some "abc") none = .error invalidDealIdMsg :=
  ⟨(claim_C8.1 (some "deal-123456") none "deal-123456" rfl).1 (by decide),
   by decide,
   (claim_C8.1 (some "abc") none "abc" rfl).2 (by decide)⟩

/-! ## Claim C2 -/

/-- Claim C2: `updateDeal` on a request supplying only `dealName` builds a
`properties` mapping holding exactly `dealname`; and in every update
operation a field absent from the input never appears in the outgoing PATCH
body. -/
theorem claim_C2 :
    (∀ id, updateDealProps ⟨id, some "X", none, none, none, none⟩ =
      [("dealname", JValue.str "X")]) ∧
    (∀ d : UpdateDealData,
      (d.dealName = none → "dealname" ∉ (updateDealProps d).map Prod.fst) ∧
      (d.pipeline = none → "pipeline" ∉ (updateDealProps d).map Prod.fst) ∧
      (d.stage = none → "dealstage" ∉ (updateDealProps d).map Prod.fst) ∧
      (d.amount = none → "amount" ∉ (updateDealProps d).map Prod.fst) ∧
      (d.closeDate = none → "closedate" ∉ (updateDealProps d).map Prod.fst)) ∧
    (∀ d : UpdateContactData,
      (d.firstName = none → "firstname" ∉ (updateContactProps d).map Prod.fst) ∧
      (d.lastName = none → "lastname" ∉ (updateContactProps d).map Prod.fst) ∧
      (d.company = none → "company" ∉ (updateContactProps d).map Prod.fst) ∧
      (d.phone = none → "phone" ∉ (updateContactProps d).map Prod.fst) ∧
      (d.email = none → "email" ∉ (updateContactProps d).map Prod.fst)) ∧
    (∀ d : UpdateCompanyData,
      (d.name = none → "name" ∉ (updateCompanyProps d).map Prod.fst) ∧
      (d.domain = none → "domain" ∉ (updateCompanyProps d).map Prod.fst) ∧
      (d.website = none → "website" ∉ (updateCompanyProps d).map Prod.fst) ∧
      (d.industry = none → "industry" ∉ (updateCompanyProps d).map Prod.fst) ∧
      (d.city = none → "city" ∉ (updateCompanyProps d).map Prod.fst) ∧
      (d.country = none → "country" ∉ (updateCompanyProps d).map Prod.fst) ∧
      (d.description = none → "description" ∉ (updateCompanyProps d).map Prod.fst)) ∧
    (∀ d : UpdateLineItemData,
      (d.sku = none → "hs_sku" ∉ (updateLineItemProps d).map Prod.fst) ∧
      (d.quantity = none → "quantity" ∉ (updateLineItemProps d).map Prod.fst) ∧
      (d.price = none → "price" ∉ (updateLineItemProps d).map Prod.fst) ∧
      (d.name = none → "name" ∉ (updateLineItemProps d).map Prod.fst)) := by
  refine ⟨fun id => rfl, fun d => ⟨?_, ?_, ?_, ?_, ?_⟩, fun d => ⟨?_, ?_, ?_, ?_, ?_⟩,
    fun d => ⟨?_, ?_, ?_, ?_, ?_, ?_, ?_⟩, fun d => ⟨?_, ?_, ?_, ?_⟩⟩ <;>
  · intro h
    simp [updateDealProps, updateContactProps, updateCompanyProps, updateLineItemProps,
      mem_keys_optStrEntry, mem_keys_optNumEntry, mem_optStrEntry, mem_optNumEntry, h]

/-- Witness for C2 at concrete sparse update inputs. -/
theorem claim_C2_witness :
    updateDealProps ⟨"123", some "X", none, none, none, none⟩ =
      [("dealname", JValue.str "X")] ∧
    "pipeline" ∉ (updateDealProps ⟨"123", some "X", none, none, none, none⟩).map Prod.fst ∧
    "firstname" ∉ (updateContactProps ⟨"7", none, some "Doe", none, none, none⟩).map Prod.fst ∧
    "domain" ∉ (updateCompanyProps ⟨"9", some "Acme", none, none, none, none, none, none⟩).map Prod.fst ∧
    "quantity" ∉ (updateLineItemProps ⟨"5", some "SKU1", none, none, none⟩).map Prod.fst :=
  ⟨claim_C2.1 "123",
   (claim_C2.2.1 _).2.1 rfl,
   (claim_C2.2.2.1 _).1 rfl,
   (claim_C2.2.2.2.1 _).2.1 rfl,
   (claim_C2.2.2.2.2 _).2.1 rfl⟩

/-! ## Claim C10 -/

/-- Claim C10: a validated `updateDeal` request's PATCH `properties` mapping
holds an entry for a field exactly when the supplied value is truthy (an
amount of `0` or an empty string is silently dropped), every kept value is
copied verbatim — in particular the stage string gets no lower-casing,
whitespace stripping or stage-table mapping — unlike `createDeal`, whose
builder canonicalizes the stage. -/
theorem claim_C10 :
    (∀ d : UpdateDealData,
      (∀ s, ("dealname", JValue.str s) ∈ updateDealProps d ↔ d.dealName = some s ∧ s ≠ "") ∧
      (∀ s, ("pipeline", JValue.str s) ∈ updateDealProps d ↔ d.pipeline = some s ∧ s ≠ "") ∧
      (∀ s, ("dealstage", JValue.str s) ∈ updateDealProps d ↔ d.stage = some s ∧ s ≠ "") ∧
      (∀ q, ("amount", JValue.num q) ∈ updateDealProps d ↔ d.amount = some q ∧ q ≠ 0) ∧
      (∀ s, ("closedate", JValue.str s) ∈ updateDealProps d ↔ d.closeDate = some s ∧ s ≠ "")) ∧
    updateDealProps ⟨"123", none, none, some "Closed Won", none, none⟩ =
      [("dealstage", JValue.str "Closed Won")] ∧
    createDealProps ⟨"Test Deal", "default", "Closed Won", 1000, "2025-01-01", "New Business"⟩ =
      [("dealname", .str "Test Deal"), ("pipeline", .str "default"),
       ("dealstage", .str "closedwon"), ("amount", .num 1000),
       ("closedate", .str "2025-01-01"), ("dealtype", .str "newbusiness")] := by
  refine ⟨fun d => ⟨?_, ?_, ?_, ?_, ?_⟩, rfl, ?_⟩
  · intro s
    simp [updateDealProps, mem_optStrEntry, mem_optNumEntry]
  · intro s
    simp [updateDealProps, mem_optStrEntry, mem_optNumEntry]
  · intro s
    simp [updateDealProps, mem_optStrEntry, mem_optNumEntry]
  · intro q
    simp [updateDealProps, mem_optStrEntry, mem_optNumEntry]
  · intro s
    simp [updateDealProps, mem_optStrEntry, mem_optNumEntry]
  · decide

/-- Witness for C10: the stage string survives verbatim, a zero amount is
dropped. -/
theorem claim_C10_witness :
    ("dealstage", JValue.str "Closed Won") ∈
      updateDealProps ⟨"123", none, none, some "Closed Won", none, none⟩ ∧
    ("amount", JValue.num 0) ∉
      updateDealProps ⟨"123", none, none, none, some 0, none⟩ :=
  ⟨((claim_C10.1 _).2.2.1 "Closed Won").2 ⟨rfl, by decide⟩,
   fun hmem => (((claim_C10.1 _).2.2.2.1 0).1 hmem).2 rfl⟩

/-! ## Claim C6 -/

/-- Counterexample to claim C6: an empty `dealStage` string is falsy, so
`searchDeals` adds no `dealstage` filter at all, while the claim demands an
EQ filter for every value other than `open`/`closed`. -/
theorem claim_C6_counterexample :
    searchDealsFilters ⟨none, none, none, some "", none, none, none, none⟩ =
      [⟨"createdate", "GTE", some "0", none⟩] ∧
    (searchDealsFilters ⟨none, none, none, some "", none, none, none, none⟩).filter
      (fun f => f.propertyName == "dealstage") = [] :=
  ⟨by decide, by decide⟩

/-- Claim C6 as amended: for every nonempty `dealStage` value, `searchDeals`
contributes exactly one `dealstage` filter — an IN filter over the five
hard-coded open-stage identifiers when the value is case-insensitively
`open`, an IN filter over `closedwon`/`closedlost` when it is `closed`, and
otherwise an EQ filter on the value lower-cased with all whitespace
removed. -/
theorem claim_C6_amended (d : SearchDealsData) (s : String)
    (hs : d.dealStage = some s) (hne : s ≠ "") :
    ((searchDealsFilters d).filter (fun f => f.propertyName == "dealstage") =
      [if jsToLower s = "open" then ⟨"dealstage", "IN", none, some openStageIds⟩
       else if jsToLower s = "closed" then
         ⟨"dealstage", "IN", none, some ["closedwon", "closedlost"]⟩
       else ⟨"dealstage", "EQ", some (stripWs (jsToLower s)), none⟩]) ∧
    openStageIds.length = 5 := by
  have hds : jsTruthyStr d.dealStage = some s := by simp [jsTruthyStr, hs, hne]
  refine ⟨?_, rfl⟩
  have hkeep : List.filter (fun f => f.propertyName == "dealstage") [dealStageFilter s] =
      [if jsToLower s = "open" then ⟨"dealstage", "IN", none, some openStageIds⟩
       else if jsToLower s = "closed" then
         ⟨"dealstage", "IN", none, some ["closedwon", "closedlost"]⟩
       else ⟨"dealstage", "EQ", some (stripWs (jsToLower s)), none⟩] := by
    unfold dealStageFilter
    split_ifs <;> rfl
  unfold searchDealsFilters
  rw [hds]
  cases jsTruthyStr d.query <;> cases jsTruthyStr d.closeDate <;>
    cases jsTruthyStr d.dealName <;> cases jsTruthyStr d.hubspotOwnerId <;>
    simp only [List.filter_append, List.filter_nil, List.filter_cons_of_neg,
      List.filter_cons_of_pos, hkeep] <;>
    simp [hkeep, List.filter_append]

/-- Witness for C6 at `Open` (aggregate IN expansion) and `Closed Won`
(EQ after normalization). -/
theorem claim_C6_witness :
    (searchDealsFilters ⟨some "Acme", none, none, some "Open", none, none, some "42", none⟩).filter
        (fun f => f.propertyName == "dealstage") =
      [⟨"dealstage", "IN", none, some openStageIds⟩] ∧
    (searchDealsFilters ⟨none, none, none, some "Closed Won", none, none, none, none⟩).filter
        (fun f => f.propertyName == "dealstage") =
      [⟨"dealstage", "EQ", some "closedwon", none⟩] :=
  ⟨((claim_C6_amended _ "Open" rfl (by decide)).1).trans (by decide),
   ((claim_C6_amended _ "Closed Won" rfl (by decide)).1).trans (by decide)⟩

/-! ## Claim C7 -/

/-- Counterexample to claim C7: a successfully stored owner identifier is
never consulted by the per-call gate — a subsequent call on the same
instance that omits `hubspotOwnerId` still fails, despite
`storedOwnerId = some (.str "528910992")`, so the stored value is not
reused. -/
theorem claim_C7_counterexample :
    ownerIdCheck ⟨none, some (JValue.str "528910992")⟩ none =
      .error ownerIdRequiredMsg ∧
    callPipelineB ⟨none, some (JValue.str "528910992")⟩ "getDeal" [] =
      .error ownerIdRequiredMsg :=
  ⟨rfl, rfl⟩

/-- Claim C7 as amended: in the owner-ID variant every call whose data lacks
a truthy `hubspotOwnerId` fails with the required-ID error, and every call
whose truthy `hubspotOwnerId` does not pass the digits-only test after
JavaScript string coercion fails with the distinct numeric error, both
before any schema validation runs (the gate error masks every schema error,
for every operation and data); a truthy value that passes the test — even a
non-string such as the number 42 — is written to `storedOwnerId` and
`getOwnerId` returns it, while a non-string value is rejected only later by
the global schema's string type with the generic validation error; the
per-call gate never reads the stored value, so each call must supply the
identifier itself. -/
theorem claim_C7_amended :
    (∀ (st : OwnerToolState) (op : String) (d : RawData),
      (dataOwnerField d = none ∨
        ∃ jv, dataOwnerField d = some jv ∧ jvTruthy jv = false) →
      callPipelineB st op d = .error ownerIdRequiredMsg) ∧
    (∀ (st : OwnerToolState) (op : String) (d : RawData) (jv : JValue),
      dataOwnerField d = some jv → jvTruthy jv = true → jvTestDigits jv = false →
      callPipelineB st op d = .error ownerIdNumericMsg) ∧
    (∀ (st : OwnerToolState) (jv : JValue),
      jvTruthy jv = true → jvTestDigits jv = true →
      ownerIdCheck st (some jv) = .ok ⟨st.ownerId, some jv⟩) ∧
    (∀ (st : OwnerToolState) (jv : JValue),
      jvTruthy jv = true → jvTestDigits jv = true → checkType .str jv = false →
      callPipelineB st "getDeal" [("hubspotOwnerId", jv)] =
        .error "Validation failed") ∧
    (∀ (st : OwnerToolState) (jv : JValue), st.storedOwnerId = some jv →
      getOwnerId st = .ok jv) := by
  have hok : ∀ (st : OwnerToolState) (jv : JValue),
      jvTruthy jv = true → jvTestDigits jv = true →
      ownerIdCheck st (some jv) = .ok ⟨st.ownerId, some jv⟩ := by
    intro st jv ht hd
    simp [ownerIdCheck, ht, hd]
  refine ⟨?_, ?_, hok, ?_, ?_⟩
  · intro st op d h
    have hg : ownerIdCheck st (dataOwnerField d) = .error ownerIdRequiredMsg := by
      rcases h with hnone | ⟨jv, hjv, hf⟩
      · unfold ownerIdCheck
        rw [hnone]
      · rw [hjv]
        simp [ownerIdCheck, hf]
    unfold callPipelineB
    rw [hg]
    rfl
  · intro st op d jv hjv ht hd
    have hg : ownerIdCheck st (dataOwnerField d) = .error ownerIdNumericMsg := by
      rw [hjv]
      simp [ownerIdCheck, ht, hd]
    unfold callPipelineB
    rw [hg]
    rfl
  · intro st jv ht hd hcs
    have hgb : globalCheckB [("hubspotOwnerId", jv)] = .error "Validation failed" := by
      have hl : List.lookup "hubspotOwnerId" globalFieldsB = some FieldType.str := rfl
      simp [globalCheckB, hl, hcs]
    have hpipe : callPipelineB st "getDeal" [("hubspotOwnerId", jv)] =
        (globalCheckB [("hubspotOwnerId", jv)]).bind
          (fun d2 => pure (⟨st.ownerId, some jv⟩, d2)) := by
      unfold callPipelineB
      rw [show dataOwnerField [("hubspotOwnerId", jv)] = some jv from rfl,
        hok st jv ht hd]
      rfl
    rw [hpipe, hgb]
    rfl
  · intro st jv h
    unfold getOwnerId
    rw [h]

/-- Witness for C7: a non-digit string and a boolean both hit the distinct
numeric gate error; the digit string `"528910992"` and the number `42` both
pass the gate and are stored (the number then failing only the later global
schema check); `getOwnerId` returns the stored value. -/
theorem claim_C7_witness :
    callPipelineB ⟨none, none⟩ "getDeal" [("hubspotOwnerId", JValue.str "abc")] =
      .error ownerIdNumericMsg ∧
    callPipelineB ⟨none, none⟩ "getDeal" [("hubspotOwnerId", JValue.bool true)] =
      .error ownerIdNumericMsg ∧
    ownerIdCheck ⟨some "111", none⟩ (some (JValue.str "528910992")) =
      .ok ⟨some "111", some (JValue.str "528910992")⟩ ∧
    ownerIdCheck ⟨some "111", none⟩ (some (JValue.num 42)) =
      .ok ⟨some "111", some (JValue.num 42)⟩ ∧
    callPipelineB ⟨none, none⟩ "getDeal" [("hubspotOwnerId", JValue.num 42)] =
      .error "Validation failed" ∧
    getOwnerId ⟨some "111", some (JValue.str "528910992")⟩ =
      .ok (JValue.str "528910992") :=
  ⟨claim_C7_amended.2.1 ⟨none, none⟩ "getDeal" _ (JValue.str "abc")
      rfl (by decide) (by decide),
   claim_C7_amended.2.1 ⟨none, none⟩ "getDeal" _ (JValue.bool true)
      rfl (by decide) (by decide),
   claim_C7_amended.2.2.1 ⟨some "111", none⟩ (JValue.str "528910992")
      (by decide) (by decide),
   claim_C7_amended.2.2.1 ⟨some "111", none⟩ (JValue.num 42)
      (by decide) (by decide),
   claim_C7_amended.2.2.2.1 ⟨none, none⟩ (JValue.num 42)
      (by decide) (by decide) (by decide),
   claim_C7_amended.2.2.2.2 ⟨some "111", some (JValue.str "528910992")⟩
      (JValue.str "528910992") rfl⟩

theorem strIncl_self (n : String) : strIncl n n :=
  ⟨[], [], by simp⟩

theorem strIncl_append_left (a b n : String) (h : strIncl a n) : strIncl (a ++ b) n := by
  obtain ⟨p, q, hpq⟩ := h
  exact ⟨p, q ++ b.data, by simp [String.data_append, hpq]⟩

theorem strIncl_append_right (a b n : String) (h : strIncl b n) : strIncl (a ++ b) n := by
  obtain ⟨p, q, hpq⟩ := h
  exact ⟨a.data ++ p, q, by simp [String.data_append, hpq]⟩

/-! ## Claim C9 -/

/-- Counterexample to claim C9: on a non-success status of its inner search,
`getDealLineItems` raises an error that embeds the parsed body but neither
the status code nor the lower-case word `failed`. -/
theorem claim_C9_counterexample :
    dealLineItemsHandle 404 c9Body ⟨none, none⟩ "123" =
      .error (dealLineItemsError c9Body) ∧
    strContainsB (dealLineItemsError c9Body) "404" = false ∧
    strContainsB (dealLineItemsError c9Body) "failed" = false ∧
    strContainsB (dealLineItemsError c9Body) c9Body = true :=
  ⟨rfl, by decide, by decide, by decide⟩

/-- Claim C9 as amended: every operation that reaches the shared dispatch
fails, on a non-success status, with an error embedding the status code, the
parsed remote body and the word `failed`, and a DELETE answered 204 returns
the fixed success marker without attempting to parse a body; the exception
is `getDealLineItems`, whose inner-search error embeds the parsed body and
the capitalized word `Failed` but not the status code. -/
theorem claim_C9_amended :
    (∀ (method : String) (status : ℕ) (b : String), ¬(200 ≤ status ∧ status ≤ 299) →
      handleResponse method status (some b) = .error (remoteErrorMsg status b) ∧
      strIncl (remoteErrorMsg status b) (toString status) ∧
      strIncl (remoteErrorMsg status b) b ∧
      strIncl (remoteErrorMsg status b) "failed") ∧
    (∀ body : Option String, handleResponse "DELETE" 204 body = .ok deleteSuccessMarker) ∧
    (∀ (status : ℕ) (t : String) (parsed : LineItemSearchResponse) (dealId : String),
      ¬(200 ≤ status ∧ status ≤ 299) →
      dealLineItemsHandle status t parsed dealId = .error (dealLineItemsError t) ∧
      strIncl (dealLineItemsError t) t ∧
      strIncl (dealLineItemsError t) "Failed") := by
  refine ⟨?_, ?_, ?_⟩
  · intro method status b hns
    have hne : ¬(method = "DELETE" ∧ status = 204) := by
      rintro ⟨-, rfl⟩
      exact hns ⟨by norm_num, by norm_num⟩
    refine ⟨?_, ?_, ?_, ?_⟩
    · unfold handleResponse
      rw [if_neg hne]
      show (if 200 ≤ status ∧ status ≤ 299 then Except.ok b
            else Except.error (remoteErrorMsg status b)) = .error (remoteErrorMsg status b)
      rw [if_neg hns]
    · unfold remoteErrorMsg
      exact strIncl_append_left _ _ _ (strIncl_append_left _ _ _
        (strIncl_append_right _ _ _ (strIncl_self _)))
    · unfold remoteErrorMsg
      exact strIncl_append_right _ _ _ (strIncl_self _)
    · unfold remoteErrorMsg
      refine strIncl_append_left _ _ _ (strIncl_append_left _ _ _
        (strIncl_append_left _ _ _ ?_))
      exact (strContainsB_iff _ _).1 (by decide)
  · intro body
    rfl
  · intro status t parsed dealId hns
    refine ⟨?_, ?_, ?_⟩
    · unfold dealLineItemsHandle
      rw [if_neg hns]
    · unfold dealLineItemsError
      exact strIncl_append_right _ _ _ (strIncl_append_right _ _ _ (strIncl_self _))
    · unfold dealLineItemsError
      exact strIncl_append_left _ _ _ ((strContainsB_iff _ _).1 (by decide))

/-- Witness for C9 at a concrete 404 with a remote error body, and a DELETE
answered 204 with an unparseable (empty) body. -/
theorem claim_C9_witness :
    handleResponse "GET" 404 (some c9Body) = .error (remoteErrorMsg 404 c9Body) ∧
    strIncl (remoteErrorMsg 404 c9Body) "404" ∧
    handleResponse "DELETE" 204 none = .ok deleteSuccessMarker ∧
    dealLineItemsHandle 404 c9Body ⟨none, some []⟩ "77" =
      .error (dealLineItemsError c9Body) := by
  have h1 := claim_C9_amended.1 "GET" 404 c9Body (by norm_num)
  have h2 := claim_C9_amended.2.1 none
  have h3 := claim_C9_amended.2.2 404 c9Body ⟨none, some []⟩ "77" (by norm_num)
  exact ⟨h1.1, h1.2.1, h2, h3.1⟩

theorem isDigit_ofNat_of_lt (k : ℕ) (h : k < 10) :
    (Char.ofNat (48 + k)).isDigit = true := by
  interval_cases k <;> decide

/-! ## Claim C1 -/

/-- Counterexample to claim C1: on a successful inner search whose response
reports `total: 5` over two returned rows, the summary's `total` is `5`, not
the number of rows; and a row with a nonempty unparseable price is rendered
as `NaN`, which has no decimal point, not as a two-decimal-place value. -/
theorem claim_C1_counterexample :
    (buildSummary "123456" c1BadResp).total = 5 ∧
    (buildSummary "123456" c1BadResp).tableData.rows.length = 2 ∧
    ((buildSummary "123456" c1BadResp).tableData.rows.map TableRow.price).head? =
      some "NaN" ∧
    "NaN".data.contains '.' = false :=
  ⟨rfl, rfl, rfl, by decide⟩

/-- Claim C1 as amended: when the inner search succeeds and its response
carries a `results` array, the summary's `totalAmount` is the sum over all
result rows of the parsed numeric `amount` (missing or unparseable
contributing 0), its `total` is the response's reported total when that is
nonzero and the number of rows otherwise, `tableData.headers` is exactly
`[Name, Quantity, Price, Amount, SKU]`, and each row's price and amount
render the parsed value (absent or empty reading as 0) to exactly two
decimal places, a nonempty unparseable value rendering as `NaN`; on the
two-row 199.98/149.99 example the `totalAmount` is 349.97 and
`tableData.rows` has length 2. -/
theorem claim_C1_amended :
    (∀ (dealId : String) (resp : LineItemSearchResponse) (rs : List LineItem),
      resp.results = some rs →
      (buildSummary dealId resp).totalAmount =
        some ((rs.map fun item => amountContribution item.properties.amount).sum) ∧
      (buildSummary dealId resp).total =
        (match resp.total with
         | some t => if t = 0 then rs.length else t
         | none => rs.length) ∧
      (buildSummary dealId resp).tableData.headers =
        ["Name", "Quantity", "Price", "Amount", "SKU"] ∧
      (buildSummary dealId resp).tableData.rows = rs.map toTableRow ∧
      (buildSummary dealId resp).tableData.rows.length = rs.length) ∧
    (∀ item : LineItem,
      (∀ q, rowNumField item.properties.price = some q →
        (toTableRow item).price = toFixed2 q) ∧
      (rowNumField item.properties.price = none → (toTableRow item).price = "NaN") ∧
      (∀ q, rowNumField item.properties.amount = some q →
        (toTableRow item).amount = toFixed2 q) ∧
      (rowNumField item.properties.amount = none → (toTableRow item).amount = "NaN")) ∧
    (∀ q : ℚ, ∃ (p : String) (a b : Char), a.isDigit ∧ b.isDigit ∧
      toFixed2 q = p ++ "." ++ ⟨[a, b]⟩) ∧
    (buildSummary "123456" c1DemoResp).totalAmount = some ((34997 : ℚ) / 100) ∧
    (buildSummary "123456" c1DemoResp).tableData.rows.length = 2 := by
  have e198 : jsParseFloat "199.98" = some ((19998 : ℚ) / 100) := by
    have h : parseDecimal "199.98" = some (false, 199, 98, 2) := by decide
    simp only [jsParseFloat, h, Option.map_some']
    norm_num
  have e149 : jsParseFloat "149.99" = some ((14999 : ℚ) / 100) := by
    have h : parseDecimal "149.99" = some (false, 149, 99, 2) := by decide
    simp only [jsParseFloat, h, Option.map_some']
    norm_num
  refine ⟨?_, ?_, ?_, ?_, rfl⟩
  · intro dealId resp rs h
    have hr : resultsLength resp = rs.length := by simp [resultsLength, h]
    refine ⟨?_, ?_, rfl, ?_, ?_⟩
    · show (resp.results.map fun rs =>
          rs.foldl (fun sum item => sum + amountContribution item.properties.amount) 0) = _
      rw [h, Option.map_some',
        foldl_add_map (fun item => amountContribution item.properties.amount) rs 0,
        zero_add]
    · show (match resp.total with
          | some t => if t = 0 then resultsLength resp else t
          | none => resultsLength resp) = _
      cases resp.total <;> simp [hr]
    · show (resp.results.getD []).map toTableRow = _
      rw [h]
      rfl
    · show ((resp.results.getD []).map toTableRow).length = _
      rw [h]
      simp
  · intro item
    refine ⟨fun q hq => ?_, fun hn => ?_, fun q hq => ?_, fun hn => ?_⟩
    · simp [toTableRow, jsToFixed2, hq]
    · simp [toTableRow, jsToFixed2, hn]
    · simp [toTableRow, jsToFixed2, hq]
    · simp [toTableRow, jsToFixed2, hn]
  · intro q
    refine ⟨(if round (q * 100) < 0 then "-" else "") ++
        toString ((round (q * 100)).natAbs / 100),
      Char.ofNat (48 + (round (q * 100)).natAbs % 100 / 10 % 10),
      Char.ofNat (48 + (round (q * 100)).natAbs % 100 % 10), ?_, ?_, rfl⟩
    · exact isDigit_ofNat_of_lt _ (Nat.mod_lt _ (by norm_num))
    · exact isDigit_ofNat_of_lt _ (Nat.mod_lt _ (by norm_num))
  · show (c1DemoResp.results.map fun rs =>
        rs.foldl (fun sum item => sum + amountContribution item.properties.amount) 0) = _
    show some (0 + amountContribution c1Item1.properties.amount +
        amountContribution c1Item2.properties.amount) = _
    have a1 : amountContribution c1Item1.properties.amount = (19998 : ℚ) / 100 := by
      show amountContribution (some "199.98") = _
      simp [amountContribution, e198]
    have a2 : amountContribution c1Item2.properties.amount = (14999 : ℚ) / 100 := by
      show amountContribution (some "149.99") = _
      simp [amountContribution, e149]
    rw [a1, a2]
    norm_num

/-- Witness for C1 at the two-row jest mock response. -/
theorem claim_C1_witness :
    (buildSummary "123456" c1DemoResp).totalAmount =
      some ((c1DemoRows.map fun item => amountContribution item.properties.amount).sum) ∧
    (buildSummary "123456" c1DemoResp).tableData.headers =
      ["Name", "Quantity", "Price", "Amount", "SKU"] ∧
    (buildSummary "123456" c1DemoResp).tableData.rows.length = c1DemoRows.length ∧
    (toTableRow c1Item1).price = toFixed2 ((9999 : ℚ) / 100) := by
  have h1 := claim_C1_amended.1 "123456" c1DemoResp c1DemoRows rfl
  have hq : rowNumField c1Item1.properties.price = some ((9999 : ℚ) / 100) := by
    have h : parseDecimal "99.99" = some (false, 99, 99, 2) := by decide
    show rowNumField (some "99.99") = _
    simp only [rowNumField, jsParseFloat, h, Option.map_some', if_neg
      (by decide : ¬("99.99" : String) = "")]
    norm_num
  have h2 := (claim_C1_amended.2.1 c1Item1).1 _ hq
  exact ⟨h1.1, h1.2.2.1, h1.2.2.2.2, h2⟩

end HubSpot
